import Mathlib

/-!
Verification of the WikiPortraits image-usage introduction-detection engine.

Python strings are embedded as `List Char` (`PyStr`); `str.lower` is embedded
via `Char.toLower` (both only fold basic-latin letters), single-character
`str.replace` as a character map, and the `in` substring test as list-infix.
Revision streams are embedded as lists ordered newest-first, exceptions as
`Except`, and the mutable `StatisticsTracker` as a record passed functionally.
-/

abbrev PyStr := List Char

/-- Embedding of Python `str.lower()` (per character). -/
def pyLower (s : PyStr) : PyStr := s.map Char.toLower

/-- Embedding of Python `str.replace(a, b)` for single characters `a`, `b`. -/
def replaceChar (a b : Char) (s : PyStr) : PyStr :=
  s.map (fun c => if c = a then b else c)

/-- Embedding of Python `needle in haystack` (substring containment). -/
def pyContains (haystack needle : PyStr) : Bool :=
  match haystack with
  | [] => needle.isEmpty
  | _ :: t => needle.isPrefixOf haystack || pyContains t needle

/-- Embedding of Python `s.removeprefix(p)`: drop `p` when it leads `s`. -/
def dropPfx (p s : PyStr) : PyStr :=
  if p.isPrefixOf s then s.drop p.length else s

/-- Embedding of Python `s.replace("File:", "")`: delete every (case-sensitive)
occurrence of `File:`, scanning left to right. -/
def removeFileColonAll : PyStr → PyStr
  | 'F' :: 'i' :: 'l' :: 'e' :: ':' :: rest => removeFileColonAll rest
  | c :: rest => c :: removeFileColonAll rest
  | [] => []

/-- `IMAGE_EXTENSIONS` from `imageusage.py`. -/
def IMAGE_EXTENSIONS : List PyStr :=
  [".jpg".data, ".jpeg".data, ".png".data, ".gif".data, ".tiff".data]

/-- `has_image_in_wikitext` from `imageusage.py`: the lower-cased content
contains some recognized image extension. -/
def has_image_in_wikitext (content : PyStr) : Bool :=
  let content_lower := pyLower content
  IMAGE_EXTENSIONS.any (fun ext => pyContains content_lower ext)

/-- `matches_file_in_wikitext` from `imageusage.py`: after lower-casing both
operands and stripping an optional `file:` lead from the file name, test the
name as given, with underscores replaced by spaces, and with spaces replaced
by underscores. -/
def matches_file_in_wikitext (content file_name : PyStr) : Bool :=
  let content_lower := pyLower content
  let file_name_lower := dropPfx "file:".data (pyLower file_name)
  let fn_spaces := replaceChar '_' ' ' file_name_lower
  let fn_underscores := replaceChar ' ' '_' file_name_lower
  pyContains content_lower file_name_lower ||
    pyContains content_lower fn_spaces ||
    pyContains content_lower fn_underscores

/-- `check_if_file_matches_wikidata_image` from `wikidata_utils.py`: delete
the literal `File:` occurrences from the Commons name, lower-case both names,
and compare the all-space forms, the all-underscore forms, or the names as
given. -/
def check_if_file_matches_wikidata_image (file_name wikidata_image : PyStr) : Bool :=
  let commons_name := pyLower (removeFileColonAll file_name)
  let wikidata_name := pyLower wikidata_image
  let commons_spaces := replaceChar '_' ' ' commons_name
  let commons_underscores := replaceChar ' ' '_' commons_name
  let wikidata_spaces := replaceChar '_' ' ' wikidata_name
  let wikidata_underscores := replaceChar ' ' '_' wikidata_name
  (commons_spaces == wikidata_spaces) ||
    (commons_underscores == wikidata_underscores) ||
    (commons_name == wikidata_name)

/-- `get_language_code` from `imageusage.py`. -/
def get_language_code (wiki_domain : PyStr) : PyStr :=
  if ".wikipedia.org".data.isSuffixOf wiki_domain then
    wiki_domain.takeWhile (fun c => c ≠ '.')
  else
    "unknown".data

-- Basic facts about the string model.

theorem pyContains_iff (haystack needle : PyStr) :
    pyContains haystack needle = true ↔ needle <:+: haystack := by
  induction haystack with
  | nil =>
    simp [pyContains, List.isEmpty_iff, List.infix_nil]
  | cons c t ih =>
    simp [pyContains, List.infix_cons_iff, List.isPrefixOf_iff_prefix, ih]

example : pyContains "abcd".data "bc".data = true := by decide
example : pyContains "abcd".data "bd".data = false := by decide
example : matches_file_in_wikitext "see [[file:a b.jpg]] here".data "File:A_b.jpg".data = true := by decide
example : matches_file_in_wikitext "nothing".data "File:A_b.jpg".data = false := by decide
example : has_image_in_wikitext "a photo X.JPG here".data = true := by decide
example : has_image_in_wikitext "plain text".data = false := by decide
example : check_if_file_matches_wikidata_image "File:Y.jpg".data "Y.jpg".data = true := by decide
example : check_if_file_matches_wikidata_image "file:Y.jpg".data "Y.jpg".data = false := by decide
example : get_language_code "en.wikipedia.org".data = "en".data := by decide

-- Data model.

/-- A page revision as yielded by `get_page_revisions_wikitext_descending`
(newest first): revision id, timestamp, wikitext content. -/
structure Revision where
  rev_id : Nat
  timestamp : PyStr
  content : PyStr
deriving DecidableEq

/-- The introduction-info dictionary built by the two finders.  Keys that are
present only in the Wikidata-path dictionary are embedded as `Option` fields
(`none` = key absent), matching the `info.get(key, default)` reads. -/
structure IntroInfo where
  introduced_revision_id : Nat
  introduced_timestamp : PyStr
  timestamp_is_formatted : Option Bool
  first_image : Bool
  first_p18 : Option Bool
  from_wikidata : Bool
  wikidata_item : Option PyStr
  previous_p18_images : Option (List PyStr)
deriving DecidableEq

/-- A well-formed P18 history entry as documented in
`get_image_history_for_item`: timestamp, image filename, revision id. -/
structure HistEntry where
  timestamp : PyStr
  image : PyStr
  revision_id : Nat
deriving DecidableEq

/-- A raw element of the P18 history list: either a dict whose three keys may
each be present or absent, or a non-dict value. -/
inductive RawItem where
  | dict (timestamp : Option PyStr) (image : Option PyStr) (revision_id : Option Nat)
  | nonDict
deriving DecidableEq

/-- The raw value returned by `get_image_history_for_item`: a list, or a
root-level shape violation (not a list). -/
inductive RawHist where
  | ofList (items : List RawItem)
  | notAList
deriving DecidableEq

/-- A well-formed history entry viewed as a raw dict with all keys present. -/
def rawOf (e : HistEntry) : RawItem :=
  RawItem.dict (some e.timestamp) (some e.image) (some e.revision_id)

/-- Python exceptions distinguished by the embedded code paths. -/
inductive PyErr where
  | valueError
  | keyError
deriving DecidableEq

/-- The external Wikidata collaborators for one page, as consulted by
`find_wikidata_introduction`: the item lookup, the current P18 value lookup,
and the raw P18 history lookup. -/
structure WdEnv where
  wikidata_item : Option PyStr
  current_image : Option PyStr
  image_history : RawHist

-- Wikitext introduction finder (`find_earliest_wikitext_introduction`).

/-- The `found_any = True` phase of `find_earliest_wikitext_introduction`:
keep updating the earliest-known introducing revision while the file is still
referenced; stop at the first file-absent revision (its image markup decides
`first_image`); if the stream ends, the file was present from the oldest
known revision and `first_image` is true. -/
def find_intro_loop (file_name : PyStr) (earliest_rev_id : Nat)
    (earliest_ts : PyStr) : List Revision → IntroInfo
  | [] =>
    IntroInfo.mk earliest_rev_id earliest_ts none true none false none none
  | rev :: rest =>
    if matches_file_in_wikitext rev.content file_name then
      find_intro_loop file_name rev.rev_id rev.timestamp rest
    else
      IntroInfo.mk earliest_rev_id earliest_ts none
        (!has_image_in_wikitext rev.content) none false none none

/-- `find_earliest_wikitext_introduction` from `imageusage.py`, over the
newest-first revision list: skip revisions until the file is referenced, then
track the earliest-known introduction with `find_intro_loop`; `none` if the
file is never referenced. -/
def find_earliest_wikitext_introduction (file_name : PyStr) :
    List Revision → Option IntroInfo
  | [] => none
  | rev :: rest =>
    if matches_file_in_wikitext rev.content file_name then
      some (find_intro_loop file_name rev.rev_id rev.timestamp rest)
    else
      find_earliest_wikitext_introduction file_name rest

-- Structured-data fallback finder (`find_wikidata_introduction`).

/-- The `previous_images` comprehension: image values of all history entries
after the first, keeping only dict entries that carry an `image` key. -/
def histPrevImages (items : List RawItem) : List PyStr :=
  (items.drop 1).filterMap fun it =>
    match it with
    | RawItem.dict _ im _ => im
    | RawItem.nonDict => none

/-- `find_wikidata_introduction` from `imageusage.py`: resolve the item, read
the current P18 value, match it against the target with
`check_if_file_matches_wikidata_image`, then interpret the raw P18 history.
A non-list history or a non-dict first element raises `ValueError`; a first
dict without a `timestamp` key raises `KeyError`; both propagate (the
`except` clause re-raises). -/
def find_wikidata_introduction (file_name : PyStr) (env : WdEnv) :
    Except PyErr (Option IntroInfo) :=
  match env.wikidata_item with
  | none => Except.ok none
  | some wikidata_item =>
    match env.current_image with
    | none => Except.ok none
    | some wikidata_image =>
      if check_if_file_matches_wikidata_image file_name wikidata_image then
        match env.image_history with
        | RawHist.notAList => Except.error PyErr.valueError
        | RawHist.ofList items =>
          match items with
          | [] =>
            Except.ok (some (IntroInfo.mk 0 "Unknown".data (some true)
              true (some true) true (some wikidata_item) (some [])))
          | RawItem.nonDict :: _ => Except.error PyErr.valueError
          | RawItem.dict ts im rid :: rest =>
            match ts with
            | none => Except.error PyErr.keyError
            | some t =>
              let previous_images := histPrevImages (RawItem.dict ts im rid :: rest)
              Except.ok (some (IntroInfo.mk (rid.getD 0) t (some true)
                (previous_images.length == 0)
                (some (decide ((RawItem.dict ts im rid :: rest).length ≤ 1)))
                true (some wikidata_item) (some previous_images)))
      else
        Except.ok none

-- Introduction resolver (`find_earliest_introduction` and the
-- `skip_wikidata` dispatch in `process_wiki_pages`).

/-- `find_earliest_introduction` from `imageusage.py`: the wikitext finder
first; only when it yields nothing, the Wikidata fallback. -/
def find_earliest_introduction (revs : List Revision) (file_name : PyStr)
    (env : WdEnv) : Except PyErr (Option IntroInfo) :=
  match find_earliest_wikitext_introduction file_name revs with
  | some wikitext_info => Except.ok (some wikitext_info)
  | none => find_wikidata_introduction file_name env

/-- The per-page lookup dispatch of `process_wiki_pages`: with
`skip_wikidata` only the wikitext finder runs, otherwise the full resolver. -/
def resolve (skip_wikidata : Bool) (revs : List Revision) (file_name : PyStr)
    (env : WdEnv) : Except PyErr (Option IntroInfo) :=
  if skip_wikidata then
    Except.ok (find_earliest_wikitext_introduction file_name revs)
  else
    find_earliest_introduction revs file_name env

-- Statistics aggregator (`StatisticsTracker`, `update_statistics`,
-- `update_file_usage`) and batch driver pieces.

/-- The counters of `StatisticsTracker.__init__`; `defaultdict(int)` fields
become total functions defaulting to `0`, `defaultdict(set)` becomes a total
function defaulting to the empty list. -/
structure StatisticsTracker where
  files_used_on_wikipedias : Nat
  wiki_pages_seen : PyStr → List PyStr
  usage_by_wiki : PyStr → Nat
  first_image_by_file : PyStr → Nat
  total_usages_by_file : PyStr → Nat
  first_image_by_wiki : PyStr → Nat
  total_usages_by_wiki : PyStr → Nat
  first_image_by_lang : PyStr → Nat
  total_usages_by_lang : PyStr → Nat
  wikidata_sourced_count : Nat
  wikidata_sourced_by_wiki : PyStr → Nat
  first_p18_count : Nat
  replaced_p18_count : Nat

theorem StatisticsTracker.ext_mk :
    ∀ {a1 b1 : Nat} {a2 b2 : PyStr → List PyStr}
      {a3 a4 a5 a6 a7 a8 a9 b3 b4 b5 b6 b7 b8 b9 : PyStr → Nat}
      {a10 b10 : Nat} {a11 b11 : PyStr → Nat} {a12 a13 b12 b13 : Nat},
      a1 = b1 → a2 = b2 → a3 = b3 → a4 = b4 → a5 = b5 → a6 = b6 → a7 = b7 →
      a8 = b8 → a9 = b9 → a10 = b10 → a11 = b11 → a12 = b12 → a13 = b13 →
      StatisticsTracker.mk a1 a2 a3 a4 a5 a6 a7 a8 a9 a10 a11 a12 a13 =
        StatisticsTracker.mk b1 b2 b3 b4 b5 b6 b7 b8 b9 b10 b11 b12 b13 := by
  intros
  subst_vars
  rfl

/-- `initialize_statistics` from `imageusage.py`: a fresh tracker, all
counters zero. -/
def initial_statistics : StatisticsTracker :=
  StatisticsTracker.mk 0 (fun _ => []) (fun _ => 0) (fun _ => 0) (fun _ => 0)
    (fun _ => 0) (fun _ => 0) (fun _ => 0) (fun _ => 0) 0 (fun _ => 0) 0 0

/-- A `defaultdict(int)` increment: `d[k] += 1`. -/
def bump (f : PyStr → Nat) (k : PyStr) : PyStr → Nat :=
  fun x => if x = k then f x + 1 else f x

/-- A `defaultdict(set)` insertion: `d[k].add(v)`. -/
def addSeen (f : PyStr → List PyStr) (k v : PyStr) : PyStr → List PyStr :=
  fun x => if x = k then (if v ∈ f k then f k else v :: f k) else f x

/-- `StatisticsTracker.update_file_usage` from `imageusage.py`. -/
def update_file_usage (stats : StatisticsTracker)
    (file_title wiki lang_code : PyStr)
    (is_first_image from_wikidata is_first_p18 : Bool) : StatisticsTracker :=
  StatisticsTracker.mk
    stats.files_used_on_wikipedias
    stats.wiki_pages_seen
    stats.usage_by_wiki
    (if is_first_image then bump stats.first_image_by_file file_title
      else stats.first_image_by_file)
    (bump stats.total_usages_by_file file_title)
    (if is_first_image then bump stats.first_image_by_wiki wiki
      else stats.first_image_by_wiki)
    (bump stats.total_usages_by_wiki wiki)
    (if is_first_image then bump stats.first_image_by_lang lang_code
      else stats.first_image_by_lang)
    (bump stats.total_usages_by_lang lang_code)
    (if from_wikidata then stats.wikidata_sourced_count + 1
      else stats.wikidata_sourced_count)
    (if from_wikidata then bump stats.wikidata_sourced_by_wiki wiki
      else stats.wikidata_sourced_by_wiki)
    (if from_wikidata then
        (if is_first_p18 then stats.first_p18_count + 1
          else stats.first_p18_count)
      else stats.first_p18_count)
    (if from_wikidata then
        (if is_first_p18 then stats.replaced_p18_count
          else stats.replaced_p18_count + 1)
      else stats.replaced_p18_count)

/-- `update_statistics` from `imageusage.py`: the module-level twin of
`update_file_usage`, reading the flags out of the info dictionary with
`info["first_image"]`, `info.get("from_wikidata", False)` and
`info.get("first_p18", False)`. -/
def update_statistics (info : IntroInfo) (stats : StatisticsTracker)
    (file_title wiki lang_code : PyStr) : StatisticsTracker :=
  StatisticsTracker.mk
    stats.files_used_on_wikipedias
    stats.wiki_pages_seen
    stats.usage_by_wiki
    (if info.first_image then bump stats.first_image_by_file file_title
      else stats.first_image_by_file)
    (bump stats.total_usages_by_file file_title)
    (if info.first_image then bump stats.first_image_by_wiki wiki
      else stats.first_image_by_wiki)
    (bump stats.total_usages_by_wiki wiki)
    (if info.first_image then bump stats.first_image_by_lang lang_code
      else stats.first_image_by_lang)
    (bump stats.total_usages_by_lang lang_code)
    (if info.from_wikidata then stats.wikidata_sourced_count + 1
      else stats.wikidata_sourced_count)
    (if info.from_wikidata then bump stats.wikidata_sourced_by_wiki wiki
      else stats.wikidata_sourced_by_wiki)
    (if info.from_wikidata then
        (if info.first_p18.getD false then stats.first_p18_count + 1
          else stats.first_p18_count)
      else stats.first_p18_count)
    (if info.from_wikidata then
        (if info.first_p18.getD false then stats.replaced_p18_count
          else stats.replaced_p18_count + 1)
      else stats.replaced_p18_count)

/-- One usage event for the aggregator: the per-usage arguments of an
`update_statistics` call. -/
structure UsageEvent where
  info : IntroInfo
  file_title : PyStr
  wiki : PyStr
  lang_code : PyStr
deriving DecidableEq

/-- Recording one usage event on the aggregate. -/
def recordEvent (stats : StatisticsTracker) (e : UsageEvent) : StatisticsTracker :=
  update_statistics e.info stats e.file_title e.wiki e.lang_code

/-- The result dictionary of `create_result_entry`. -/
structure ResultEntry where
  file : PyStr
  wiki : PyStr
  language : PyStr
  page : PyStr
  introduced_revision_id : Nat
  introduced_timestamp : PyStr
  first_image : Bool
  from_wikidata : Bool
  wikidata_item : Option PyStr
  first_p18 : Option Bool
  previous_p18_images : List PyStr
deriving DecidableEq

/-- `create_result_entry` from `imageusage.py`.  `fmt` stands for the
`format_timestamp` collaborator (a pure timestamp re-formatter); it is applied
exactly when the info dictionary does not carry `timestamp_is_formatted`. -/
def create_result_entry (fmt : PyStr → PyStr) (info : IntroInfo)
    (file_title wiki lang_code page_title : PyStr) : ResultEntry :=
  ResultEntry.mk file_title wiki lang_code page_title
    info.introduced_revision_id
    (if info.timestamp_is_formatted.getD false then info.introduced_timestamp
      else fmt info.introduced_timestamp)
    info.first_image
    info.from_wikidata
    info.wikidata_item
    info.first_p18
    (info.previous_p18_images.getD [])

-- Batch driver (`process_wiki_pages`).

/-- The external per-page inputs consumed while processing one page: its
title, its revision stream and its Wikidata collaborators. -/
structure PageEnv where
  page_title : PyStr
  revisions : List Revision
  wd : WdEnv

/-- `process_wiki_pages` from `imageusage.py`, over one wiki's page list: for
each page, record it as seen, run the lookup, fold any result into the
statistics and the result list.  The `except` clause prints and re-raises, so
a raised error propagates out of the loop. -/
def process_wiki_pages (fmt : PyStr → PyStr) (wiki : PyStr)
    (pages : List PageEnv) (file_title : PyStr) (skip_wikidata : Bool)
    (stats : StatisticsTracker) (results : List ResultEntry) :
    Except PyErr (StatisticsTracker × List ResultEntry) :=
  match pages with
  | [] => Except.ok (stats, results)
  | p :: rest =>
    let lang_code := get_language_code wiki
    let stats1 := StatisticsTracker.mk stats.files_used_on_wikipedias
      (addSeen stats.wiki_pages_seen wiki p.page_title)
      stats.usage_by_wiki stats.first_image_by_file stats.total_usages_by_file
      stats.first_image_by_wiki stats.total_usages_by_wiki
      stats.first_image_by_lang stats.total_usages_by_lang
      stats.wikidata_sourced_count stats.wikidata_sourced_by_wiki
      stats.first_p18_count stats.replaced_p18_count
    match resolve skip_wikidata p.revisions file_title p.wd with
    | Except.error e => Except.error e
    | Except.ok none =>
      process_wiki_pages fmt wiki rest file_title skip_wikidata stats1 results
    | Except.ok (some info) =>
      process_wiki_pages fmt wiki rest file_title skip_wikidata
        (update_statistics info stats1 file_title wiki lang_code)
        (results ++ [create_result_entry fmt info file_title wiki lang_code p.page_title])

/-- Projection of an `Except` onto its error, if any. -/
def exceptErr {ε α : Type} : Except ε α → Option ε
  | Except.error e => some e
  | Except.ok _ => none

-- Character-level facts about lower-casing and separator replacement.

theorem char_ofNat_toNat (n : Nat) (h : n < 55296) : (Char.ofNat n).toNat = n := by
  rw [Char.ofNat, dif_pos (Or.inl h)]
  rfl

/-- `Char.toLower` fixes exactly the separator characters: for `s` a space or
an underscore, `c.toLower = s` iff `c = s`. -/
theorem toLower_eq_sep {c s : Char} (hs : s = ' ' ∨ s = '_') :
    c.toLower = s ↔ c = s := by
  constructor
  · intro h
    rw [show c.toLower =
        if c.toNat >= 65 ∧ c.toNat <= 90 then Char.ofNat (c.toNat + 32) else c
      from rfl] at h
    split at h
    · exfalso
      have h65 : c.toNat ≥ 65 ∧ c.toNat ≤ 90 := by assumption
      have hv : (Char.ofNat (c.toNat + 32)).toNat = c.toNat + 32 :=
        char_ofNat_toNat _ (by omega)
      rw [h] at hv
      rcases hs with rfl | rfl
      · have hsp : (' ' : Char).toNat = 32 := rfl
        omega
      · have hun : ('_' : Char).toNat = 95 := rfl
        omega
    · exact h
  · intro h
    subst h
    rcases hs with rfl | rfl <;> decide

/-- Lower-casing commutes with a separator replacement, per character. -/
theorem toLower_sepSwap (a b c : Char) (ha : a = ' ' ∨ a = '_')
    (hb : b = ' ' ∨ b = '_') :
    (if c = a then b else c).toLower = if c.toLower = a then b else c.toLower := by
  by_cases h : c = a
  · subst h
    rw [if_pos ((toLower_eq_sep ha).mpr rfl), if_pos rfl]
    exact (toLower_eq_sep hb).mpr rfl
  · rw [if_neg h, if_neg (fun hc => h ((toLower_eq_sep ha).mp hc))]

/-- `str.lower` commutes with a separator `str.replace`. -/
theorem pyLower_replaceChar (a b : Char) (ha : a = ' ' ∨ a = '_')
    (hb : b = ' ' ∨ b = '_') (s : PyStr) :
    pyLower (replaceChar a b s) = replaceChar a b (pyLower s) := by
  induction s with
  | nil => rfl
  | cons c t ih =>
    simp only [pyLower, replaceChar, List.map_cons] at *
    rw [ih, toLower_sepSwap a b c ha hb]

/-- Collapsing separator replacements: a second separator replacement over an
already uniform string is absorbed. -/
theorem replaceChar_sep_absorb (a b : Char) (hab : a ≠ b) (s : PyStr) :
    replaceChar a b (replaceChar a b s) = replaceChar a b s ∧
    replaceChar b a (replaceChar a b s) = replaceChar b a s ∧
    replaceChar a b (replaceChar b a s) = replaceChar a b s := by
  refine ⟨?_, ?_, ?_⟩ <;>
    · induction s with
      | nil => rfl
      | cons c t ih =>
        simp only [replaceChar, List.map_cons, List.cons.injEq] at *
        refine ⟨?_, ih⟩
        by_cases h1 : c = a <;> by_cases h2 : c = b <;>
          simp [h1, h2, hab, Ne.symm hab]

/-- Whether a separator-free pattern leads a string is unchanged by a
separator replacement of the string. -/
theorem isPrefixOf_replaceChar_sep (a b : Char) (ha : a = ' ' ∨ a = '_')
    (hb : b = ' ' ∨ b = '_') (p : PyStr)
    (hp : ∀ x ∈ p, x ≠ ' ' ∧ x ≠ '_') (s : PyStr) :
    p.isPrefixOf (replaceChar a b s) = p.isPrefixOf s := by
  induction p generalizing s with
  | nil => cases s <;> rfl
  | cons x p' ih =>
    cases s with
    | nil => rfl
    | cons c t =>
      have hx := hp x (by simp)
      have hxc : (x == (if c = a then b else c)) = (x == c) := by
        by_cases hca : c = a
        · subst hca
          have hxb : (x == b) = false := by
            rcases hb with rfl | rfl <;> simp [hx.1, hx.2]
          have hxa : (x == c) = false := by
            rcases ha with rfl | rfl <;> simp [hx.1, hx.2]
          rw [if_pos rfl, hxb, hxa]
        · rw [if_neg hca]
      simp only [replaceChar, List.map_cons, List.isPrefixOf, hxc]
      by_cases hxceq : (x == c) = true
      · simp only [hxceq, Bool.true_and]
        exact ih (fun y hy => hp y (by simp [hy])) t
      · simp only [Bool.eq_false_iff.mpr hxceq, Bool.false_and]

/-- `removeprefix("file:")` commutes with a separator replacement. -/
theorem dropPfx_fileColon_replaceChar (a b : Char) (ha : a = ' ' ∨ a = '_')
    (hb : b = ' ' ∨ b = '_') (s : PyStr) :
    dropPfx "file:".data (replaceChar a b s) =
      replaceChar a b (dropPfx "file:".data s) := by
  unfold dropPfx
  rw [isPrefixOf_replaceChar_sep a b ha hb _ (by decide) s]
  by_cases h : "file:".data.isPrefixOf s = true
  · simp only [h, if_true, replaceChar, List.map_drop]
  · simp only [h, if_false]
    rw [if_neg (by simp [h]), if_neg (by simp [h])]

/-- Two characters agree after space-to-underscore collapsing iff they agree
after underscore-to-space collapsing. -/
theorem sepChar_eq_iff (c d : Char) :
    ((if c = ' ' then '_' else c) = (if d = ' ' then '_' else d)) ↔
      ((if c = '_' then ' ' else c) = (if d = '_' then ' ' else d)) := by
  by_cases hc1 : c = ' ' <;> by_cases hd1 : d = ' ' <;>
    by_cases hc2 : c = '_' <;> by_cases hd2 : d = '_' <;>
    simp_all [eq_comm]

/-- Two strings agree after space-to-underscore collapsing iff they agree
after underscore-to-space collapsing. -/
theorem replaceChar_sep_eq_iff (x y : PyStr) :
    (replaceChar ' ' '_' x = replaceChar ' ' '_' y) ↔
      (replaceChar '_' ' ' x = replaceChar '_' ' ' y) := by
  induction x generalizing y with
  | nil => cases y <;> simp [replaceChar]
  | cons c t ih =>
    cases y with
    | nil => simp [replaceChar]
    | cons d u =>
      simp only [replaceChar, List.map_cons, List.cons.injEq] at *
      rw [sepChar_eq_iff]
      constructor
      · rintro ⟨h1, h2⟩
        exact ⟨h1, (ih u).mp h2⟩
      · rintro ⟨h1, h2⟩
        exact ⟨h1, (ih u).mpr h2⟩

/-- C10: the method `StatisticsTracker.update_file_usage` and the module-level
function `update_statistics` perform exactly the same counter updates: calling
`update_statistics` on an info dictionary equals calling `update_file_usage`
with the flags the dictionary carries (`first_image`, `from_wikidata` with
default false, `first_p18` with default false). -/
theorem C10_update_statistics_refines_update_file_usage
    (info : IntroInfo) (stats : StatisticsTracker)
    (file_title wiki lang_code : PyStr) :
    update_statistics info stats file_title wiki lang_code =
      update_file_usage stats file_title wiki lang_code
        info.first_image info.from_wikidata (info.first_p18.getD false) := rfl

/-- C4, counterexample: the fallback matcher does not use the text matcher's
prefix normalization.  For the target `file:Y.jpg` and value `Y.jpg`, the
claimed criterion holds (after the text-matcher-style strip of the optional
file-namespace prefix from the lower-cased target, the two lower-cased names
are equal), yet `check_if_file_matches_wikidata_image` rejects the pair: its
`replace("File:", "")` is case-sensitive, so the prefix spelled `file:`
survives. -/
theorem C4_counterexample :
    dropPfx "file:".data (pyLower "file:Y.jpg".data) = pyLower "Y.jpg".data ∧
      check_if_file_matches_wikidata_image "file:Y.jpg".data "Y.jpg".data = false := by
  decide

/-- C4, amended: `check_if_file_matches_wikidata_image` deletes every
case-sensitive occurrence of the literal `File:` from the target (it does not
strip a case-insensitive namespace prefix), and then succeeds iff the two
names, lower-cased and with spaces identified with underscores, are equal. -/
theorem C4_amended_wikidata_match_characterization
    (file_name wikidata_image : PyStr) :
    check_if_file_matches_wikidata_image file_name wikidata_image = true ↔
      replaceChar '_' ' ' (pyLower (removeFileColonAll file_name)) =
        replaceChar '_' ' ' (pyLower wikidata_image) := by
  simp only [check_if_file_matches_wikidata_image, Bool.or_eq_true, beq_iff_eq]
  constructor
  · rintro ((h | h) | h)
    · exact h
    · exact (replaceChar_sep_eq_iff _ _).mp h
    · rw [h]
  · intro h
    exact Or.inl (Or.inl h)

/-- C5, counterexample: the file-reference test is not invariant under
interchanging underscore and space occurrences in the haystack.  The target
`a_b c` is found in the content `a_b c`, but after interchanging the
content's underscore and space (giving `a b_c`) none of the three candidate
spellings (`a_b c`, `a b c`, `a_b_c`) occurs. -/
theorem C5_counterexample :
    matches_file_in_wikitext "a_b c".data "a_b c".data = true ∧
      matches_file_in_wikitext "a b_c".data "a_b c".data = false := by
  decide

/-- C5, amended: the file-reference test is invariant under any change of
letter case in either operand (it depends only on the lower-cased operands).
For separators only weaker properties hold: writing the target with all
underscores replaced by spaces is equivalent to writing it with all spaces
replaced by underscores, and uniformly replacing the haystack's underscores
by spaces (or its spaces by underscores) preserves an existing match.  A
mixed interchange of separators can change the result. -/
theorem C5_amended_matcher_invariances :
    (∀ content content' file_name file_name' : PyStr,
        pyLower content = pyLower content' →
        pyLower file_name = pyLower file_name' →
        matches_file_in_wikitext content file_name =
          matches_file_in_wikitext content' file_name') ∧
    (∀ content file_name : PyStr,
        matches_file_in_wikitext content (replaceChar '_' ' ' file_name) =
          matches_file_in_wikitext content (replaceChar ' ' '_' file_name)) ∧
    (∀ content file_name : PyStr,
        matches_file_in_wikitext content file_name = true →
        matches_file_in_wikitext (replaceChar '_' ' ' content) file_name = true ∧
          matches_file_in_wikitext (replaceChar ' ' '_' content) file_name = true) := by
  refine ⟨?_, ?_, ?_⟩
  · intro content content' file_name file_name' hc hf
    simp only [matches_file_in_wikitext]
    rw [hc, hf]
  · intro content file_name
    simp only [matches_file_in_wikitext]
    rw [pyLower_replaceChar '_' ' ' (Or.inr rfl) (Or.inl rfl) file_name,
        pyLower_replaceChar ' ' '_' (Or.inl rfl) (Or.inr rfl) file_name,
        dropPfx_fileColon_replaceChar '_' ' ' (Or.inr rfl) (Or.inl rfl) _,
        dropPfx_fileColon_replaceChar ' ' '_' (Or.inl rfl) (Or.inr rfl) _]
    obtain ⟨hspsp, husp, hsus⟩ :=
      replaceChar_sep_absorb '_' ' ' (by decide)
        (dropPfx "file:".data (pyLower file_name))
    obtain ⟨husus, _, _⟩ :=
      replaceChar_sep_absorb ' ' '_' (by decide)
        (dropPfx "file:".data (pyLower file_name))
    rw [hspsp, husp, hsus, husus]
    cases hA : pyContains (pyLower content)
        (replaceChar '_' ' ' (dropPfx "file:".data (pyLower file_name))) <;>
      cases hB : pyContains (pyLower content)
        (replaceChar ' ' '_' (dropPfx "file:".data (pyLower file_name))) <;>
      simp [hA, hB]
  · intro content file_name h
    simp only [matches_file_in_wikitext, Bool.or_eq_true] at h ⊢
    rw [pyLower_replaceChar '_' ' ' (Or.inr rfl) (Or.inl rfl) content,
        pyLower_replaceChar ' ' '_' (Or.inl rfl) (Or.inr rfl) content]
    obtain ⟨hspsp, husp, hsus⟩ :=
      replaceChar_sep_absorb '_' ' ' (by decide)
        (dropPfx "file:".data (pyLower file_name))
    obtain ⟨husus, _, _⟩ :=
      replaceChar_sep_absorb ' ' '_' (by decide)
        (dropPfx "file:".data (pyLower file_name))
    have key : ∀ v : PyStr,
        pyContains (pyLower content) v = true →
        replaceChar '_' ' ' v =
          replaceChar '_' ' ' (dropPfx "file:".data (pyLower file_name)) →
        replaceChar ' ' '_' v =
          replaceChar ' ' '_' (dropPfx "file:".data (pyLower file_name)) →
        (pyContains (replaceChar '_' ' ' (pyLower content))
            (replaceChar '_' ' ' (dropPfx "file:".data (pyLower file_name))) = true) ∧
        (pyContains (replaceChar ' ' '_' (pyLower content))
            (replaceChar ' ' '_' (dropPfx "file:".data (pyLower file_name))) = true) := by
      intro v hv hsp hus
      have hinf := (pyContains_iff _ _).mp hv
      constructor
      · rw [← hsp]
        exact (pyContains_iff _ _).mpr (hinf.map _)
      · rw [← hus]
        exact (pyContains_iff _ _).mpr (hinf.map _)
    rcases h with (h | h) | h
    · obtain ⟨h1, h2⟩ := key _ h rfl rfl
      exact ⟨Or.inl (Or.inr h1), Or.inr h2⟩
    · obtain ⟨h1, h2⟩ := key _ h hspsp husp
      exact ⟨Or.inl (Or.inr h1), Or.inr h2⟩
    · obtain ⟨h1, h2⟩ := key _ h hsus husus
      exact ⟨Or.inl (Or.inr h1), Or.inr h2⟩

/-- C5, witness for the amended invariances at concrete inputs. -/
theorem C5_amended_witness :
    (matches_file_in_wikitext "Px_Q".data "X".data =
        matches_file_in_wikitext "px_q".data "x".data) ∧
    (matches_file_in_wikitext "k".data (replaceChar '_' ' ' "a_b".data) =
        matches_file_in_wikitext "k".data (replaceChar ' ' '_' "a_b".data)) ∧
    (matches_file_in_wikitext (replaceChar '_' ' ' "y a_b z".data) "a b".data = true ∧
        matches_file_in_wikitext (replaceChar ' ' '_' "y a_b z".data) "a b".data = true) :=
  ⟨C5_amended_matcher_invariances.1 _ _ _ _ (by decide) (by decide),
   C5_amended_matcher_invariances.2.1 _ _,
   C5_amended_matcher_invariances.2.2 "y a_b z".data "a b".data (by decide)⟩

-- The wikitext introduction finder on decomposed revision streams.

/-- While every scanned revision still references the file, the tracking loop
keeps moving the earliest-known introduction backward; the first file-absent
revision stops it with the last referencing revision recorded. -/
theorem find_intro_loop_all_match (file_name : PyStr) (r : Revision)
    (mid : List Revision) (s : Revision) (post : List Revision)
    (hmid : ∀ x ∈ mid, matches_file_in_wikitext x.content file_name = true)
    (hs : matches_file_in_wikitext s.content file_name = false) :
    find_intro_loop file_name r.rev_id r.timestamp (mid ++ s :: post) =
      IntroInfo.mk
        ((r :: mid).getLast (List.cons_ne_nil r mid)).rev_id
        ((r :: mid).getLast (List.cons_ne_nil r mid)).timestamp
        none (!has_image_in_wikitext s.content) none false none none := by
  induction mid generalizing r with
  | nil =>
    simp [find_intro_loop, hs]
  | cons m ms ih =>
    have hm : matches_file_in_wikitext m.content file_name = true :=
      hmid m (by simp)
    rw [List.cons_append, show find_intro_loop file_name r.rev_id r.timestamp
        (m :: (ms ++ s :: post)) = find_intro_loop file_name m.rev_id
        m.timestamp (ms ++ s :: post) by simp [find_intro_loop, hm]]
    rw [ih m (fun x hx => hmid x (by simp [hx]))]
    rw [List.getLast_cons (List.cons_ne_nil m ms)]

/-- Leading revisions that do not reference the file are skipped. -/
theorem find_earliest_wikitext_introduction_skip (file_name : PyStr)
    (pre l : List Revision)
    (hpre : ∀ x ∈ pre, matches_file_in_wikitext x.content file_name = false) :
    find_earliest_wikitext_introduction file_name (pre ++ l) =
      find_earliest_wikitext_introduction file_name l := by
  induction pre with
  | nil => rfl
  | cons p ps ih =>
    have hp : matches_file_in_wikitext p.content file_name = false :=
      hpre p (by simp)
    rw [List.cons_append]
    simp only [find_earliest_wikitext_introduction, hp]
    simp only [Bool.false_eq_true, if_false]
    exact ih (fun x hx => hpre x (by simp [hx]))

/-- C1: on a newest-first revision stream that first has some (possibly none)
revisions without the file, then a block of revisions referencing the file,
then a terminating revision without it, the wikitext introduction finder
returns the id and timestamp of the last file-referencing revision scanned
before the terminating one, with the first-image flag true iff the
terminating file-absent revision contains no image markup at all. -/
theorem C1_wikitext_introduction (file_name : PyStr) (pre : List Revision)
    (r : Revision) (mid : List Revision) (s : Revision) (post : List Revision)
    (hpre : ∀ x ∈ pre, matches_file_in_wikitext x.content file_name = false)
    (hr : matches_file_in_wikitext r.content file_name = true)
    (hmid : ∀ x ∈ mid, matches_file_in_wikitext x.content file_name = true)
    (hs : matches_file_in_wikitext s.content file_name = false) :
    find_earliest_wikitext_introduction file_name
        (pre ++ r :: (mid ++ s :: post)) =
      some (IntroInfo.mk
        ((r :: mid).getLast (List.cons_ne_nil r mid)).rev_id
        ((r :: mid).getLast (List.cons_ne_nil r mid)).timestamp
        none (!has_image_in_wikitext s.content) none false none none) := by
  rw [find_earliest_wikitext_introduction_skip file_name pre _ hpre]
  simp only [find_earliest_wikitext_introduction, hr, if_true]
  rw [find_intro_loop_all_match file_name r mid s post hmid hs]

/-- C1, witness: target `x.jpg` is referenced in the newest revision 2 and
absent from the older revision 1 (which holds no image markup), so the finder
reports introduction at revision 2 with the first-image flag set. -/
theorem C1_witness :
    find_earliest_wikitext_introduction "x.jpg".data
        [Revision.mk 2 "t2".data "[[x.jpg]]".data,
         Revision.mk 1 "t1".data "hello".data] =
      some (IntroInfo.mk 2 "t2".data none true none false none none) := by
  have h := C1_wikitext_introduction "x.jpg".data []
    (Revision.mk 2 "t2".data "[[x.jpg]]".data) []
    (Revision.mk 1 "t1".data "hello".data) []
    (by simp) (by decide) (by simp) (by decide)
  simpa using h

-- Resolver policy and record invariants.

/-- If no revision references the file, the wikitext finder yields nothing. -/
theorem find_earliest_wikitext_introduction_none (file_name : PyStr)
    (revs : List Revision)
    (h : ∀ rev ∈ revs, matches_file_in_wikitext rev.content file_name = false) :
    find_earliest_wikitext_introduction file_name revs = none := by
  induction revs with
  | nil => rfl
  | cons rev rest ih =>
    have hr : matches_file_in_wikitext rev.content file_name = false :=
      h rev (by simp)
    simp only [find_earliest_wikitext_introduction, hr]
    simp only [Bool.false_eq_true, if_false]
    exact ih (fun x hx => h x (by simp [hx]))

/-- C7: the resolver runs the wikitext finder first and returns its record
unchanged — for any skip flag and any state of the structured-data
collaborators; and when the file appears in no revision and the caller
disabled the structured-data fallback, the resolver returns none. -/
theorem C7_resolver_policy :
    (∀ (skip_wikidata : Bool) (revs : List Revision) (file_name : PyStr)
        (env : WdEnv) (r : IntroInfo),
        find_earliest_wikitext_introduction file_name revs = some r →
        resolve skip_wikidata revs file_name env = Except.ok (some r)) ∧
    (∀ (revs : List Revision) (file_name : PyStr) (env : WdEnv),
        find_earliest_wikitext_introduction file_name revs = none →
        resolve true revs file_name env = Except.ok none) ∧
    (∀ (revs : List Revision) (file_name : PyStr) (env : WdEnv),
        (∀ rev ∈ revs,
          matches_file_in_wikitext rev.content file_name = false) →
        resolve true revs file_name env = Except.ok none) := by
  refine ⟨?_, ?_, ?_⟩
  · intro skip_wikidata revs file_name env r h
    cases skip_wikidata with
    | false =>
      simp only [resolve, if_false, Bool.false_eq_true,
        find_earliest_introduction, h]
    | true =>
      simp only [resolve, if_true, h]
  · intro revs file_name env h
    simp only [resolve, if_true, h]
  · intro revs file_name env h
    simp only [resolve, if_true,
      find_earliest_wikitext_introduction_none file_name revs h]

/-- C7, witness: with the fallback disabled, a stream whose single revision
references `x.jpg` resolves to that record for an arbitrary collaborator
state, and a stream that never references it resolves to none. -/
theorem C7_witness :
    resolve true [Revision.mk 5 "t5".data "a x.jpg b".data] "x.jpg".data
        (WdEnv.mk none none RawHist.notAList) =
      Except.ok (some (IntroInfo.mk 5 "t5".data none true none false none none)) ∧
    resolve true [Revision.mk 5 "t5".data "no image".data] "x.jpg".data
        (WdEnv.mk none none RawHist.notAList) = Except.ok none :=
  ⟨C7_resolver_policy.1 true _ _ _ _ (by decide),
   C7_resolver_policy.2.2 _ _ _ (by decide)⟩

/-- Records built by the tracking loop of the wikitext finder carry no
structured-data fields. -/
theorem find_intro_loop_shape (file_name : PyStr) (i : Nat) (t : PyStr)
    (revs : List Revision) :
    (find_intro_loop file_name i t revs).timestamp_is_formatted = none ∧
    (find_intro_loop file_name i t revs).first_p18 = none ∧
    (find_intro_loop file_name i t revs).from_wikidata = false ∧
    (find_intro_loop file_name i t revs).wikidata_item = none ∧
    (find_intro_loop file_name i t revs).previous_p18_images = none := by
  induction revs generalizing i t with
  | nil => exact ⟨rfl, rfl, rfl, rfl, rfl⟩
  | cons rev rest ih =>
    simp only [find_intro_loop]
    by_cases h : matches_file_in_wikitext rev.content file_name = true
    · simp only [h, if_true]
      exact ih _ _
    · simp only [Bool.eq_false_iff.mpr h]
      simp

/-- Records produced by the wikitext finder carry no structured-data
fields. -/
theorem find_earliest_wikitext_introduction_shape (file_name : PyStr)
    (revs : List Revision) (r : IntroInfo)
    (h : find_earliest_wikitext_introduction file_name revs = some r) :
    r.timestamp_is_formatted = none ∧ r.first_p18 = none ∧
      r.from_wikidata = false ∧ r.wikidata_item = none ∧
      r.previous_p18_images = none := by
  induction revs with
  | nil => exact absurd h (by simp [find_earliest_wikitext_introduction])
  | cons rev rest ih =>
    simp only [find_earliest_wikitext_introduction] at h
    by_cases hm : matches_file_in_wikitext rev.content file_name = true
    · simp only [hm, if_true, Option.some.injEq] at h
      rw [← h]
      exact find_intro_loop_shape file_name rev.rev_id rev.timestamp rest
    · simp only [Bool.eq_false_iff.mpr hm] at h
      simp only [Bool.false_eq_true, if_false] at h
      exact ih h

/-- Records produced by the Wikidata fallback are marked as coming from
structured data. -/
theorem find_wikidata_introduction_from (file_name : PyStr) (env : WdEnv)
    (r : IntroInfo)
    (h : find_wikidata_introduction file_name env = Except.ok (some r)) :
    r.from_wikidata = true := by
  obtain ⟨item, img, hist⟩ := env
  simp only [find_wikidata_introduction] at h
  cases item with
  | none => simp at h
  | some q =>
    cases img with
    | none => simp at h
    | some w =>
      by_cases hc : check_if_file_matches_wikidata_image file_name w = true
      · simp only [hc, if_true] at h
        cases hist with
        | notAList => simp at h
        | ofList items =>
          match items with
          | [] =>
            simp only [Except.ok.injEq, Option.some.injEq] at h
            rw [← h]
          | RawItem.nonDict :: rest => simp at h
          | RawItem.dict ts im rid :: rest =>
            cases ts with
            | none => simp at h
            | some t =>
              simp only [Except.ok.injEq, Option.some.injEq] at h
              rw [← h]
      · simp only [Bool.eq_false_iff.mpr hc] at h
        simp at h

/-- C6: a record the resolver produced that is not marked as structured-data
sourced has no structured item id, no first-property-value flag and no prior
image values; the result entry built from it shows null, null and the empty
list for those fields. -/
theorem C6_record_invariant (revs : List Revision) (file_name : PyStr)
    (env : WdEnv) (r : IntroInfo) (fmt : PyStr → PyStr)
    (file_title wiki lang_code page_title : PyStr)
    (h : find_earliest_introduction revs file_name env = Except.ok (some r))
    (hfw : r.from_wikidata = false) :
    (r.wikidata_item = none ∧ r.first_p18 = none ∧
      r.previous_p18_images = none) ∧
    ((create_result_entry fmt r file_title wiki lang_code page_title).wikidata_item = none ∧
      (create_result_entry fmt r file_title wiki lang_code page_title).first_p18 = none ∧
      (create_result_entry fmt r file_title wiki lang_code page_title).previous_p18_images = []) := by
  have hshape : r.wikidata_item = none ∧ r.first_p18 = none ∧
      r.previous_p18_images = none := by
    simp only [find_earliest_introduction] at h
    cases hwt : find_earliest_wikitext_introduction file_name revs with
    | some wt =>
      rw [hwt] at h
      simp only [Except.ok.injEq, Option.some.injEq] at h
      obtain ⟨_, h2, _, h4, h5⟩ :=
        find_earliest_wikitext_introduction_shape file_name revs wt hwt
      rw [← h]
      exact ⟨h4, h2, h5⟩
    | none =>
      rw [hwt] at h
      have := find_wikidata_introduction_from file_name env r h
      rw [this] at hfw
      exact absurd hfw (by simp)
  refine ⟨hshape, ?_, ?_, ?_⟩ <;>
    simp [create_result_entry, hshape.1, hshape.2.1, hshape.2.2]

/-- C6, witness at a concrete wikitext-sourced record. -/
theorem C6_witness :
    ((IntroInfo.mk 3 "t3".data none true none false none none).wikidata_item = none ∧
      (IntroInfo.mk 3 "t3".data none true none false none none).first_p18 = none ∧
      (IntroInfo.mk 3 "t3".data none true none false none none).previous_p18_images = none) ∧
    ((create_result_entry id (IntroInfo.mk 3 "t3".data none true none false none none)
        "File:X.jpg".data "en.wikipedia.org".data "en".data "Page".data).wikidata_item = none ∧
      (create_result_entry id (IntroInfo.mk 3 "t3".data none true none false none none)
        "File:X.jpg".data "en.wikipedia.org".data "en".data "Page".data).first_p18 = none ∧
      (create_result_entry id (IntroInfo.mk 3 "t3".data none true none false none none)
        "File:X.jpg".data "en.wikipedia.org".data "en".data "Page".data).previous_p18_images = []) :=
  C6_record_invariant [Revision.mk 3 "t3".data "pic x.jpg here".data]
    "x.jpg".data (WdEnv.mk none none RawHist.notAList) _ id
    "File:X.jpg".data "en.wikipedia.org".data "en".data "Page".data
    rfl rfl

/-- C2: on a history of well-formed entries accepted by the fallback finder
(item resolved, current value present and matching), the returned record has
`first_p18` true iff the history length is at most 1, `previous_p18_images`
equal to the image fields of all entries but the first in order, the
first-image flag true iff that list is empty, revision id and timestamp taken
from the first entry (0 and `Unknown` on an empty history), and the
structured-data mark set. -/
theorem C2_wikidata_introduction_record (file_name item img : PyStr)
    (entries : List HistEntry)
    (hmatch : check_if_file_matches_wikidata_image file_name img = true) :
    find_wikidata_introduction file_name
        (WdEnv.mk (some item) (some img)
          (RawHist.ofList (entries.map rawOf))) =
      Except.ok (some (IntroInfo.mk
        ((entries.head?.map HistEntry.revision_id).getD 0)
        ((entries.head?.map HistEntry.timestamp).getD "Unknown".data)
        (some true)
        (((entries.drop 1).map HistEntry.image).isEmpty)
        (some (decide (entries.length ≤ 1)))
        true (some item)
        (some ((entries.drop 1).map HistEntry.image)))) := by
  cases entries with
  | nil =>
    simp [find_wikidata_introduction, hmatch]
  | cons e rest =>
    simp only [List.map_cons, rawOf, find_wikidata_introduction, hmatch,
      if_true]
    have hprev : histPrevImages
        (RawItem.dict (some e.timestamp) (some e.image) (some e.revision_id) ::
          rest.map rawOf) = rest.map HistEntry.image := by
      simp only [histPrevImages, List.drop_succ_cons, List.drop_zero]
      induction rest with
      | nil => rfl
      | cons f fs ih =>
        simp only [List.map_cons, rawOf, List.filterMap_cons, ih]
    rw [hprev]
    have h1 : ((rest.map HistEntry.image).length == 0) =
        (((e :: rest).drop 1).map HistEntry.image).isEmpty := by
      simp only [List.drop_succ_cons, List.drop_zero]
      cases hx : rest.map HistEntry.image <;> simp [hx, List.isEmpty]
    have h2 : decide ((RawItem.dict (some e.timestamp) (some e.image)
          (some e.revision_id) :: rest.map rawOf).length ≤ 1) =
        decide ((e :: rest).length ≤ 1) := by
      simp [List.length_cons, List.length_map]
    rw [h1, h2]
    rfl

/-- C2, witness: a three-entry newest-first history for a matching item. -/
theorem C2_witness :
    find_wikidata_introduction "File:V0.jpg".data
        (WdEnv.mk (some "Q7".data) (some "v0.jpg".data)
          (RawHist.ofList ([HistEntry.mk "t0".data "v0.jpg".data 10,
            HistEntry.mk "t1".data "v1.jpg".data 9,
            HistEntry.mk "t2".data "v2.jpg".data 8].map rawOf))) =
      Except.ok (some (IntroInfo.mk 10 "t0".data (some true) false
        (some false) true (some "Q7".data)
        (some ["v1.jpg".data, "v2.jpg".data]))) := by
  have h := C2_wikidata_introduction_record "File:V0.jpg".data "Q7".data
    "v0.jpg".data
    [HistEntry.mk "t0".data "v0.jpg".data 10,
     HistEntry.mk "t1".data "v1.jpg".data 9,
     HistEntry.mk "t2".data "v2.jpg".data 8] (by decide)
  simpa using h

-- A file reference to an image-extension target implies image markup.

/-- Every recognized image extension starts with a dot and is untouched by
separator replacements. -/
theorem image_extension_facts :
    ∀ ext ∈ IMAGE_EXTENSIONS, ext.head? = some '.' ∧
      replaceChar '_' ' ' ext = ext ∧ replaceChar ' ' '_' ext = ext := by
  decide

/-- A suffix beginning with a character foreign to `p` survives chopping the
leading `p` off an append. -/
theorem suffix_of_append_of_head (ext p b : PyStr) (h : ext <:+ p ++ b)
    (hhead : ext.head? = some '.') (hp : '.' ∉ p) : ext <:+ b := by
  obtain ⟨u, hu⟩ := h
  rcases List.append_eq_append_iff.mp hu with ⟨a', hpa, he⟩ | ⟨c', _, hb⟩
  · cases a' with
    | nil =>
      rw [he, List.nil_append]
    | cons x xs =>
      exfalso
      have hx : x = '.' := by
        have hhe : ext.head? = some x := by rw [he]; rfl
        rw [hhead] at hhe
        exact (Option.some.inj hhe).symm
      apply hp
      rw [hpa, hx]
      exact List.mem_append.mpr (Or.inr (by simp))
  · exact ⟨c', hb.symm⟩

/-- A dot-led suffix of the lower-cased file name survives the optional
`file:` strip. -/
theorem suffix_dropPfx_fileColon (file_name ext : PyStr)
    (hhead : ext.head? = some '.') (hsuf : ext <:+ pyLower file_name) :
    ext <:+ dropPfx "file:".data (pyLower file_name) := by
  unfold dropPfx
  by_cases h : "file:".data.isPrefixOf (pyLower file_name) = true
  · simp only [h, if_true]
    obtain ⟨t, ht⟩ := List.isPrefixOf_iff_prefix.mp h
    rw [← ht] at hsuf
    rw [← ht, List.drop_left]
    exact suffix_of_append_of_head ext "file:".data t hsuf hhead (by decide)
  · simp only [h, if_false]
    rw [if_neg (by simp [h])]
    exact hsuf

/-- C9: whenever the target file name's lower-cased form ends with one of the
recognized image extensions, a content accepted by the file-reference test is
also accepted by the image-markup test. -/
theorem C9_reference_implies_image_markup (content file_name ext : PyStr)
    (hext : ext ∈ IMAGE_EXTENSIONS)
    (hsuffix : ext <:+ pyLower file_name)
    (hmatch : matches_file_in_wikitext content file_name = true) :
    has_image_in_wikitext content = true := by
  obtain ⟨hhead, hsp, hus⟩ := image_extension_facts ext hext
  have hfl : ext <:+ dropPfx "file:".data (pyLower file_name) :=
    suffix_dropPfx_fileColon file_name ext hhead hsuffix
  simp only [matches_file_in_wikitext, Bool.or_eq_true] at hmatch
  have hinf : ext <:+: pyLower content := by
    rcases hmatch with (h | h) | h
    · exact hfl.isInfix.trans ((pyContains_iff _ _).mp h)
    · have : ext <:+ replaceChar '_' ' '
          (dropPfx "file:".data (pyLower file_name)) := by
        have hm := hfl.map (fun c => if c = '_' then ' ' else c)
        rw [show (ext.map fun c => if c = '_' then ' ' else c) = ext from hsp]
          at hm
        exact hm
      exact this.isInfix.trans ((pyContains_iff _ _).mp h)
    · have : ext <:+ replaceChar ' ' '_'
          (dropPfx "file:".data (pyLower file_name)) := by
        have hm := hfl.map (fun c => if c = ' ' then '_' else c)
        rw [show (ext.map fun c => if c = ' ' then '_' else c) = ext from hus]
          at hm
        exact hm
      exact this.isInfix.trans ((pyContains_iff _ _).mp h)
  simp only [has_image_in_wikitext, List.any_eq_true]
  exact ⟨ext, hext, (pyContains_iff _ _).mpr hinf⟩

/-- C9, witness: target `B.JPG` (lower-cased form ends in `.jpg`) is
referenced in the content, which therefore counts as containing image
markup. -/
theorem C9_witness : has_image_in_wikitext "a b.jpg here".data = true :=
  C9_reference_implies_image_markup "a b.jpg here".data "B.JPG".data
    ".jpg".data (by decide) (by decide) (by decide)

-- Per-item failures in the batch driver.

/-- A page whose structured-data history has a root-level shape violation:
the empty revision stream sends the lookup to the fallback, the item and a
matching current value are found, and the history is not a list. -/
def c3BadPage : PageEnv :=
  PageEnv.mk "Alpha".data []
    (WdEnv.mk (some "Q1".data) (some "x.jpg".data) RawHist.notAList)

/-- A page whose lookup succeeds directly in wikitext. -/
def c3GoodPage : PageEnv :=
  PageEnv.mk "Beta".data [Revision.mk 7 "t7".data "see x.jpg".data]
    (WdEnv.mk none none (RawHist.ofList []))

/-- C3, counterexample: a root-level shape violation while processing the
first page makes `process_wiki_pages` return that error — the second page,
whose lookup alone succeeds and yields a result, is never processed, so the
batch does not continue with the next page. -/
theorem C3_counterexample :
    exceptErr (process_wiki_pages id "en.wikipedia.org".data
        [c3BadPage, c3GoodPage] "File:X.jpg".data false
        initial_statistics []) = some PyErr.valueError ∧
    exceptErr (process_wiki_pages id "en.wikipedia.org".data
        [c3GoodPage] "File:X.jpg".data false
        initial_statistics []) = none := by
  exact ⟨rfl, rfl⟩

/-- C3, amended: a per-item failure is printed and then re-raised, so it is
fatal to the whole batch: as soon as one page's lookup raises,
`process_wiki_pages` returns that error without processing the remaining
pages (and `main` maps the escaped exception to exit status 1). -/
theorem C3_amended_error_aborts_batch (fmt : PyStr → PyStr)
    (wiki file_title : PyStr) (skip_wikidata : Bool)
    (stats : StatisticsTracker) (results : List ResultEntry)
    (p : PageEnv) (rest : List PageEnv) (e : PyErr)
    (h : resolve skip_wikidata p.revisions file_title p.wd = Except.error e) :
    process_wiki_pages fmt wiki (p :: rest) file_title skip_wikidata
        stats results = Except.error e := by
  simp only [process_wiki_pages, h]

/-- C3, witness: the shape-violating page aborts a two-page batch. -/
theorem C3_amended_witness :
    process_wiki_pages id "en.wikipedia.org".data [c3BadPage, c3GoodPage]
        "File:X.jpg".data false initial_statistics [] =
      Except.error PyErr.valueError :=
  C3_amended_error_aborts_batch id "en.wikipedia.org".data "File:X.jpg".data
    false initial_statistics [] c3BadPage [c3GoodPage] PyErr.valueError rfl

-- Aggregator algebra.

/-- Two point increments on a counter map commute. -/
theorem bump_comm (f : PyStr → Nat) (a b : PyStr) :
    bump (bump f a) b = bump (bump f b) a := by
  funext x
  unfold bump
  split_ifs <;> omega

/-- A conditional point increment, iterated for two events, commutes. -/
theorem condBump_comm (c1 c2 : Bool) (k1 k2 : PyStr) (f : PyStr → Nat) :
    (if c2 then bump (if c1 then bump f k1 else f) k2
      else (if c1 then bump f k1 else f)) =
    (if c1 then bump (if c2 then bump f k2 else f) k1
      else (if c2 then bump f k2 else f)) := by
  cases c1 <;> cases c2 <;> simp [bump_comm]

/-- Recording two usage events commutes. -/
theorem recordEvent_comm (s : StatisticsTracker) (e1 e2 : UsageEvent) :
    recordEvent (recordEvent s e1) e2 = recordEvent (recordEvent s e2) e1 := by
  unfold recordEvent update_statistics
  apply StatisticsTracker.ext_mk
  · rfl
  · rfl
  · rfl
  · exact condBump_comm _ _ _ _ _
  · exact bump_comm _ _ _
  · exact condBump_comm _ _ _ _ _
  · exact bump_comm _ _ _
  · exact condBump_comm _ _ _ _ _
  · exact bump_comm _ _ _
  · cases e1.info.from_wikidata <;> cases e2.info.from_wikidata <;> simp
  · exact condBump_comm _ _ _ _ _
  · cases e1.info.from_wikidata <;> cases e2.info.from_wikidata <;>
      cases hp1 : e1.info.first_p18.getD false <;>
      cases hp2 : e2.info.first_p18.getD false <;> simp [hp1, hp2]
  · cases e1.info.from_wikidata <;> cases e2.info.from_wikidata <;>
      cases hp1 : e1.info.first_p18.getD false <;>
      cases hp2 : e2.info.first_p18.getD false <;> simp [hp1, hp2]

/-- Folding a permuted event list gives the same aggregate. -/
theorem foldl_recordEvent_perm {l1 l2 : List UsageEvent} (h : l1.Perm l2) :
    ∀ s : StatisticsTracker, l1.foldl recordEvent s = l2.foldl recordEvent s := by
  induction h with
  | nil => intro s; rfl
  | cons x _ ih =>
    intro s
    simp only [List.foldl_cons]
    exact ih _
  | swap x y l =>
    intro s
    simp only [List.foldl_cons]
    rw [recordEvent_comm]
  | trans _ _ ih1 ih2 =>
    intro s
    rw [ih1, ih2]

/-- Each counter can only grow when an event is recorded. -/
theorem recordEvent_mono (s : StatisticsTracker) (e : UsageEvent) (k : PyStr) :
    s.files_used_on_wikipedias ≤ (recordEvent s e).files_used_on_wikipedias ∧
    s.usage_by_wiki k ≤ (recordEvent s e).usage_by_wiki k ∧
    s.total_usages_by_file k ≤ (recordEvent s e).total_usages_by_file k ∧
    s.total_usages_by_wiki k ≤ (recordEvent s e).total_usages_by_wiki k ∧
    s.total_usages_by_lang k ≤ (recordEvent s e).total_usages_by_lang k ∧
    s.first_image_by_file k ≤ (recordEvent s e).first_image_by_file k ∧
    s.first_image_by_wiki k ≤ (recordEvent s e).first_image_by_wiki k ∧
    s.first_image_by_lang k ≤ (recordEvent s e).first_image_by_lang k ∧
    s.wikidata_sourced_count ≤ (recordEvent s e).wikidata_sourced_count ∧
    s.wikidata_sourced_by_wiki k ≤ (recordEvent s e).wikidata_sourced_by_wiki k ∧
    s.first_p18_count ≤ (recordEvent s e).first_p18_count ∧
    s.replaced_p18_count ≤ (recordEvent s e).replaced_p18_count := by
  have hb : ∀ (f : PyStr → Nat) (a j : PyStr), f j ≤ bump f a j := by
    intro f a j
    unfold bump
    split_ifs <;> omega
  unfold recordEvent update_statistics
  refine ⟨le_refl _, le_refl _, ?_, ?_, ?_, ?_, ?_, ?_, ?_, ?_, ?_, ?_⟩ <;>
    dsimp only <;>
    (first
      | exact hb _ _ _
      | (split_ifs <;> (first | exact le_refl _ | exact hb _ _ _ | omega)))

/-- C8: recording the same finite collection of usage events on a fresh
aggregate in any order yields identical final counters, and every counter of
the tracker is a natural number that a recording step never decreases. -/
theorem C8_aggregator_order_invariance (l1 l2 : List UsageEvent)
    (hperm : l1.Perm l2) :
    l1.foldl recordEvent initial_statistics =
      l2.foldl recordEvent initial_statistics ∧
    (∀ (s : StatisticsTracker) (e : UsageEvent) (k : PyStr),
      s.total_usages_by_file k ≤ (recordEvent s e).total_usages_by_file k ∧
      s.total_usages_by_wiki k ≤ (recordEvent s e).total_usages_by_wiki k ∧
      s.total_usages_by_lang k ≤ (recordEvent s e).total_usages_by_lang k ∧
      s.first_image_by_file k ≤ (recordEvent s e).first_image_by_file k ∧
      s.first_image_by_wiki k ≤ (recordEvent s e).first_image_by_wiki k ∧
      s.first_image_by_lang k ≤ (recordEvent s e).first_image_by_lang k ∧
      s.wikidata_sourced_count ≤ (recordEvent s e).wikidata_sourced_count ∧
      s.wikidata_sourced_by_wiki k ≤ (recordEvent s e).wikidata_sourced_by_wiki k ∧
      s.first_p18_count ≤ (recordEvent s e).first_p18_count ∧
      s.replaced_p18_count ≤ (recordEvent s e).replaced_p18_count) := by
  refine ⟨foldl_recordEvent_perm hperm _, ?_⟩
  intro s e k
  obtain ⟨_, _, h3, h4, h5, h6, h7, h8, h9, h10, h11, h12⟩ :=
    recordEvent_mono s e k
  exact ⟨h3, h4, h5, h6, h7, h8, h9, h10, h11, h12⟩

/-- A concrete wikitext-sourced usage event. -/
def c8Event1 : UsageEvent :=
  UsageEvent.mk (IntroInfo.mk 2 "t2".data none true none false none none)
    "File:A.jpg".data "en.wikipedia.org".data "en".data

/-- A concrete structured-data-sourced usage event. -/
def c8Event2 : UsageEvent :=
  UsageEvent.mk (IntroInfo.mk 9 "t9".data (some true) false (some false) true
      (some "Q7".data) (some ["old.jpg".data]))
    "File:B.jpg".data "de.wikipedia.org".data "de".data

/-- C8, witness: the two concrete events recorded in either order give the
same aggregate, and a recording step does not decrease a counter. -/
theorem C8_witness :
    [c8Event1, c8Event2].foldl recordEvent initial_statistics =
      [c8Event2, c8Event1].foldl recordEvent initial_statistics ∧
    initial_statistics.total_usages_by_file "File:A.jpg".data ≤
      (recordEvent initial_statistics c8Event1).total_usages_by_file
        "File:A.jpg".data :=
  ⟨(C8_aggregator_order_invariance [c8Event1, c8Event2]
      [c8Event2, c8Event1] (List.Perm.swap c8Event2 c8Event1 [])).1,
   ((C8_aggregator_order_invariance [] [] List.Perm.nil).2
      initial_statistics c8Event1 "File:A.jpg".data).1⟩
